import Mathlib

/-!
Verification of the two device-control protocol stacks of this repository:
the Devialet Expert UDP protocol (`devialet_expert.py`, family A) and the
minidsp-rs client (`minidsp_rs_client.py`, family B).

Modelling conventions:
* Python `bytearray` buffers that are mutated in place are modelled as total
  byte maps `ℕ → ℕ` together with the pointwise update `bset`; `bytearray(142)`
  is the all-zero map.  Reads beyond the real length never occur at the
  indices the theorems mention.
* Byte strings that Python decodes as UTF-8 and strips of NUL padding are
  kept as lists of byte values with the zero bytes filtered out (NUL is a
  single byte in UTF-8, so filtering before decoding is equivalent).
* dB values, which the source passes around as floats that are always exact
  multiples of 0.5, are represented in half-dB units: the integer `n`
  stands for `n / 2` dB.  On that grid every comparison, clamp, `fabs`,
  and subtraction performed by the source is exact, and
  `ceil(1 + log2(n / 2)) = ceil(log2 n) = Nat.clog 2 n` for `n ≥ 1`.
* `async` methods have no internal await between the state changes and the
  transmissions we model; each is embedded as a pure function returning the
  updated state and/or the list of transmitted payloads.
-/

/-- Whether a byte is a UTF-8 continuation byte (0x80-0xBF). -/
def utf8ContByte (b : ℕ) : Bool := 0x80 ≤ b && b ≤ 0xBF

/-- Strict UTF-8 validity of a byte sequence, as enforced by Python's
`bytes.decode("UTF-8")`: ASCII, 2-byte leads 0xC2-0xDF, 3-byte leads
0xE0-0xEF (with the overlong and surrogate exclusions for 0xE0 and 0xED),
and 4-byte leads 0xF0-0xF4 (with the range exclusions for 0xF0 and 0xF4);
everything else raises `UnicodeDecodeError`. -/
def utf8Valid : List ℕ → Bool
  | [] => true
  | b1 :: t1 =>
    if b1 ≤ 0x7F then utf8Valid t1
    else if 0xC2 ≤ b1 && b1 ≤ 0xDF then
      match t1 with
      | b2 :: t2 => utf8ContByte b2 && utf8Valid t2
      | [] => false
    else if 0xE0 ≤ b1 && b1 ≤ 0xEF then
      match t1 with
      | b2 :: b3 :: t3 =>
        (if b1 = 0xE0 then 0xA0 ≤ b2 && b2 ≤ 0xBF
         else if b1 = 0xED then 0x80 ≤ b2 && b2 ≤ 0x9F
         else utf8ContByte b2) && utf8ContByte b3 && utf8Valid t3
      | _ => false
    else if 0xF0 ≤ b1 && b1 ≤ 0xF4 then
      match t1 with
      | b2 :: b3 :: b4 :: t4 =>
        (if b1 = 0xF0 then 0x90 ≤ b2 && b2 ≤ 0xBF
         else if b1 = 0xF4 then 0x80 ≤ b2 && b2 ≤ 0x8F
         else utf8ContByte b2) && utf8ContByte b3 && utf8ContByte b4 && utf8Valid t4
      | _ => false
    else false

namespace Devialet

/-- Whether `int(chr(b))` succeeds on a byte: in the byte range the only
characters `int` accepts are the ASCII digits. -/
def digitByte (b : ℕ) : Bool := 0x30 ≤ b && b ≤ 0x39

/-- Pointwise update of a byte buffer: models `buf[i] = v` on a `bytearray`. -/
def bset (d : ℕ → ℕ) (i v : ℕ) : ℕ → ℕ := fun j => if j = i then v else d j

/-- The all-zero buffer, models `bytearray(142)`. -/
def bzero : ℕ → ℕ := fun _ => 0

/-- MAX_VOLUME_DB = -10 dB, in half-dB units. -/
def MAX_VOLUME_DB_HALF : ℤ := -20

/-- One inner-loop step of `_crc16`: shift left, xor `0x1021` when bit 15
was set.  As in the Python source the intermediate value is not masked to
16 bits (the excess high bits never reach bit 15 again and are removed by
the final mask). -/
def crcShiftStep (crc : ℕ) : ℕ :=
  if 0 < crc &&& 0x8000 then (crc <<< 1) ^^^ 0x1021 else crc <<< 1

/-- Iterations (`k` of them) of the inner loop of `_crc16` (the source runs 8 per byte). -/
def crcShiftSteps : ℕ → ℕ → ℕ
  | 0, crc => crc
  | k + 1, crc => crcShiftSteps k (crcShiftStep crc)

/-- Embedding of `_crc16`: CRC over a byte list, initial value `0xFFFF`; each byte is
xor-ed into the high half, followed by 8 shift steps; final mask `0xFFFF`. -/
def _crc16 (data : List ℕ) : ℕ :=
  (data.foldl (fun crc b => crcShiftSteps 8 (crc ^^^ (b <<< 8))) 0xFFFF) &&& 0xFFFF

/-- Modelled from the spec: the CRC-16/CCITT-FALSE reference definition
(poly `0x1021`, init `0xFFFF`, MSB-first, no final XOR), maintaining a
16-bit state at every step.  Used only to compare `_crc16` against the
published algorithm. -/
def crcRefStep (crc : ℕ) : ℕ :=
  if 0 < crc &&& 0x8000 then ((crc <<< 1) ^^^ 0x1021) &&& 0xFFFF
  else (crc <<< 1) &&& 0xFFFF

/-- Modelled from the spec: `k` reference CRC steps. -/
def crcRefSteps : ℕ → ℕ → ℕ
  | 0, crc => crc
  | k + 1, crc => crcRefSteps k (crcRefStep crc)

/-- Modelled from the spec: the CCITT-FALSE reference CRC of a byte list. -/
def crc16_ref (data : List ℕ) : ℕ :=
  data.foldl (fun crc b => crcRefSteps 8 ((crc ^^^ (b <<< 8)) &&& 0xFFFF)) 0xFFFF

/-- Ceiling base-2 logarithm, computed with a fuel argument so that the
recursion is structural (the first argument is the fuel; any fuel of at
least `n` yields `Nat.clog 2 n`). -/
def clog2F : ℕ → ℕ → ℕ
  | _, 0 => 0
  | _, 1 => 0
  | 0, _ => 0
  | fuel + 1, n => clog2F fuel ((n + 1) / 2) + 1

/-- Ceiling base-2 logarithm: `clog2 n = ceil(log2 n)` for `n ≥ 1`
(equal to `Nat.clog 2 n`, proved below). -/
def clog2 (n : ℕ) : ℕ := clog2F n n

/-- Embedding of `_db_convert`, on the half-dB grid: `n` stands for `|n / 2|` dB.
`_db_convert(0) = 0`, `_db_convert(0.5) = 0x3F00`, and otherwise
`(256 >> ceil(1 + log2(x))) + _db_convert(x - 0.5)`; for `x = n / 2` the
shift amount `ceil(1 + log2(n / 2)) = ceil(log2 n)` is `clog2 n`. -/
def _db_convert : ℕ → ℕ
  | 0 => 0
  | 1 => 0x3F00
  | n + 2 => (256 >>> clog2 (n + 2)) + _db_convert (n + 1)

/-- A parsed input source of a family-A device (`Source` named tuple).
`name` is the NUL-stripped byte string; `is_enabled` is the numeric value
of the ASCII digit byte (`int(chr(b))`, i.e. `b - 48` on digit input) and
is truthy when nonzero. -/
structure Source where
  name : List ℕ
  index : ℕ
  is_enabled : ℕ
  is_selected : Bool
deriving DecidableEq

/-- Family-A `Device` state.  `num_packets` and `num_commands` are the
per-device transmit counters (class attributes starting at 0). -/
structure Device where
  name : List ℕ
  ip_address : String
  source : ℕ
  sources : List Source
  power : Bool
  muted : Bool
  volume : ℕ
  num_packets : ℕ
  num_commands : ℕ
deriving DecidableEq

/-- Embedding of `Device.__init__`: parse a status datagram (length ≥ 311, given as a
total byte map) and the sender address into a fresh `Device`.  The
constructor raises when the device-name bytes are not valid UTF-8, when an
enable byte is not an ASCII digit (`int(chr(b))` raises `ValueError`), or
when a source-name slice is not valid UTF-8; the checks are folded into a
single guard here because all the theorems need is that no `Device` is
produced on any of these paths.  On digit input `int(chr(b)) = b - 48`. -/
def Device.init (status_data : ℕ → ℕ) (addr : String) : Except String Device :=
  if utf8Valid ((List.range 31).map (fun i => status_data (19 + i))) &&
      (List.range 15).all (fun i =>
        digitByte (status_data (52 + i * 17)) &&
        utf8Valid ((List.range 16).map (fun j => status_data (53 + i * 17 + j)))) then
    let source := (status_data 308 &&& 0x3C) >>> 2
    Except.ok
      { name := ((List.range 31).map (fun i => status_data (19 + i))).filter (fun b => b ≠ 0)
        ip_address := addr
        source := source
        sources := (List.range 15).map (fun i =>
          { name := ((List.range 16).map
                (fun j => status_data (53 + i * 17 + j))).filter (fun b => b ≠ 0)
            index := i
            is_enabled := status_data (52 + i * 17) - 48
            is_selected := i == source })
        power := status_data 307 &&& 0x80 != 0
        muted := status_data 308 &&& 0x2 != 0
        volume := status_data 310
        num_packets := 0
        num_commands := 0 }
  else Except.error "ValueError or UnicodeDecodeError in status parse"

/-- Embedding of `Device.update`: merge a freshly parsed snapshot into this device.
Returns the updated device and the `has_updated` flag.  On a name mismatch
it exits early, touching nothing; otherwise each compared field takes the
incoming value when it differs, and `sources` is always overwritten. -/
def Device.update (self device_update : Device) : Device × Bool :=
  if device_update.name ≠ self.name then (self, false)
  else
    let u1 := device_update.ip_address ≠ self.ip_address
    let u2 := device_update.source ≠ self.source
    let u3 := device_update.power ≠ self.power
    let u4 := device_update.muted ≠ self.muted
    let u5 := device_update.volume ≠ self.volume
    ({ self with
        ip_address := device_update.ip_address
        source := device_update.source
        power := device_update.power
        muted := device_update.muted
        volume := device_update.volume
        sources := device_update.sources },
      u1 || u2 || u3 || u4 || u5)

/-- Embedding of `Device.get_sources`: the names of the enabled sources. -/
def Device.get_sources (d : Device) : List (List ℕ) :=
  (d.sources.filter (fun s => s.is_enabled != 0)).map Source.name

/-- Embedding of `Device.get_source`, i.e. `self.sources[self.source].name`.  The Python
indexing raises `IndexError` out of range; this is modelled by `none`. -/
def Device.get_source (d : Device) : Option (List ℕ) :=
  (d.sources[d.source]?).map Source.name

/-- The command payload built by `async_set_power_state` before counter and
CRC stamping: `data[6] = int(power_state)`, `data[7] = 0x01`. -/
def powerCommandData (power_state : Bool) : ℕ → ℕ :=
  bset (bset bzero 6 (if power_state then 1 else 0)) 7 0x01

/-- The 16-bit volume word computed by `async_set_volume_db` (half-dB
input): clamp to `MAX_VOLUME_DB`, convert the absolute value through
`_db_convert`, and set bit 15 when the requested dB is negative. -/
def volumeCode (volume_db : ℤ) : ℕ :=
  let volume_db := if volume_db > MAX_VOLUME_DB_HALF then MAX_VOLUME_DB_HALF else volume_db
  let volume := _db_convert volume_db.natAbs
  if volume_db < 0 then volume ||| 0x8000 else volume

/-- Embedding of `Device.async_set_volume_db`: the list of logical command payloads
handed to `async_send_command`.  The source builds the frame and sends it
unconditionally, so the list always has exactly one element; the device
state is never consulted. -/
def Device.async_set_volume_db (_d : Device) (volume_db : ℤ) : List (ℕ → ℕ) :=
  let volume := volumeCode volume_db
  [bset (bset (bset (bset bzero 6 0x00) 7 0x04)
      8 ((volume &&& 0xFF00) >>> 8)) 9 (volume &&& 0x00FF)]

/-- The volume code corresponding to a device's currently recorded `volume`
byte, i.e. the code `async_set_volume_db` would compute for
`volume_as_db = (volume - 195) / 2` dB.  This is the spec's notion of "the
code corresponding to the currently recorded volume"; the source itself
never performs this comparison. -/
def recordedVolumeCode (d : Device) : ℕ :=
  volumeCode ((d.volume : ℤ) - 195)

/-- The command payload built by `async_select_source` for a given source
index: `out_val = 0x4000 | (index << 5)` split big-endian into bytes 8 and
9, with the low byte right-shifted once when `index > 7`. -/
def sourceCommandData (index : ℕ) : ℕ → ℕ :=
  let out_val := 0x4000 ||| (index <<< 5)
  let data := bset (bset (bset bzero 6 0x00) 7 0x05) 8 ((out_val &&& 0xFF00) >>> 8)
  if index > 7 then bset data 9 ((out_val &&& 0x00FF) >>> 1)
  else bset data 9 (out_val &&& 0x00FF)

/-- Embedding of `Device.async_select_source`: linear search of `self.sources` for the
first entry whose name matches; `ValueError` (modelled as `Except.error`)
when none matches, otherwise the encoded command is transmitted. -/
def Device.async_select_source (d : Device) (new_source_name : List ℕ) :
    Except String (ℕ → ℕ) :=
  match d.sources.find? (fun s => s.name == new_source_name) with
  | none => Except.error "Invalid source"
  | some new_source => Except.ok (sourceCommandData new_source.index)

/-- Whether a control operation raised (`Except.error`). -/
def raisesError {α : Type} : Except String α → Bool
  | Except.error _ => true
  | Except.ok _ => false

/-- The 12-byte slice `self.command[0:12]` that `prepare_command` feeds to
`_crc16`. -/
def firstTwelve (b : ℕ → ℕ) : List ℕ :=
  [b 0, b 1, b 2, b 3, b 4, b 5, b 6, b 7, b 8, b 9, b 10, b 11]

/-- Embedding of `SendCommandProtocol.prepare_command`: stamp the marker bytes, wrap
each counter to 0 when it exceeds `0xffff`, write both counters big-endian
into bytes 2-5, and write the CRC of bytes 0-11 into bytes 12-13.  Returns
the (possibly wrapped) counters as stored back on the device, and the
stamped buffer. -/
def prepare_command (num_packets num_commands : ℕ) (command : ℕ → ℕ) :
    ℕ × ℕ × (ℕ → ℕ) :=
  let command := bset command 0 0x44
  let command := bset command 1 0x72
  let num_packets := if num_packets > 0xffff then 0 else num_packets
  let num_commands := if num_commands > 0xffff then 0 else num_commands
  let command := bset command 2 ((num_packets &&& 0xff00) >>> 8)
  let command := bset command 3 (num_packets &&& 0x00ff)
  let command := bset command 4 ((num_commands &&& 0xff00) >>> 8)
  let command := bset command 5 (num_commands &&& 0x00ff)
  let crc := _crc16 (firstTwelve command)
  let command := bset command 12 ((crc &&& 0xFF00) >>> 8)
  let command := bset command 13 (crc &&& 0x00FF)
  (num_packets, num_commands, command)

/-- The transmit loop of `connection_made`: for each repetition, re-run
`prepare_command`, advance `num_packets` by one, and send the buffer.
Returns the transmitted frames and the final counters. -/
def sendLoop : ℕ → ℕ → ℕ → (ℕ → ℕ) → List (ℕ → ℕ) × ℕ × ℕ
  | 0, num_packets, num_commands, _command => ([], num_packets, num_commands)
  | times + 1, num_packets, num_commands, command =>
    let r := prepare_command num_packets num_commands command
    let rest := sendLoop times (r.1 + 1) r.2.1 r.2.2
    (r.2.2 :: rest.1, rest.2)

/-- Embedding of `SendCommandProtocol.connection_made`: run the transmit loop `times`
times (`NUM_OF_TRANSMITS_PER_COMMAND = 2` by default), then advance
`num_commands` once for the whole logical command. -/
def connection_made (times num_packets num_commands : ℕ) (command : ℕ → ℕ) :
    List (ℕ → ℕ) × ℕ × ℕ :=
  let r := sendLoop times num_packets num_commands command
  (r.1, r.2.1, r.2.2 + 1)

end Devialet

namespace Minidsp

/-- MIN_VOL_DB for family B, in dB. -/
def MIN_VOL_DB : ℚ := -127.5

/-- MAX_VOL_DB for family B, in dB. -/
def MAX_VOL_DB : ℚ := 0

/-- Family-B `Device` state: the fields touched by the control setters and
websocket updates.  Class-attribute defaults: `source = None`,
`sources = ["Analog", "Toslink"]`, `preset = 0`. -/
structure Device where
  name : List ℕ
  source : Option String
  sources : List String
  muted : Bool
  preset : ℤ
  volume_db : ℚ
deriving DecidableEq

/-- A `master_status` configuration mutation posted to
`/devices/0/config` as JSON. -/
inductive MasterStatus where
  | mute (b : Bool)
  | volume (v : ℚ)
  | source (s : String)
  | preset (p : ℤ)
deriving DecidableEq

/-- The clamp applied by `async_set_volume_db` (family B): into
`[MIN_VOL_DB, MAX_VOL_DB]`. -/
def clampVol (volume_db : ℚ) : ℚ :=
  if volume_db < MIN_VOL_DB then MIN_VOL_DB
  else if volume_db > MAX_VOL_DB then MAX_VOL_DB
  else volume_db

/-- Embedding of `Device.async_set_volume_db` (family B): clamp, record the clamped
value on the device, and post it.  Returns (raised error, new state,
posted messages). -/
def Device.async_set_volume_db (d : Device) (volume_db : ℚ) :
    Option String × Device × List MasterStatus :=
  let volume_db := clampVol volume_db
  (none, { d with volume_db := volume_db }, [MasterStatus.volume volume_db])

/-- Embedding of `Device.async_select_source` (family B): `ValueError` when the name is
not in the source catalog, with nothing recorded or posted; otherwise
record the new source and post it. -/
def Device.async_select_source (d : Device) (new_source_name : String) :
    Option String × Device × List MasterStatus :=
  if new_source_name ∉ d.sources then (some "Source is not one of the sources", d, [])
  else (none, { d with source := some new_source_name },
    [MasterStatus.source new_source_name])

/-- Embedding of `Device.async_select_preset` (family B): `ValueError` when the
0-indexed preset is outside `0..4`, with nothing recorded or posted;
otherwise record the new preset and post it. -/
def Device.async_select_preset (d : Device) (preset : ℤ) :
    Option String × Device × List MasterStatus :=
  if preset < 0 ∨ preset > 4 then (some "Preset is not valid", d, [])
  else (none, { d with preset := preset }, [MasterStatus.preset preset])

/-- A parsed family-B discovery announcement (`DiscoveryPacket`).
`ip_address` is the 32-bit big-endian value handed to
`ipaddress.ip_address`; `name` is the raw UTF-8 byte slice. -/
structure DiscoveryPacket where
  mac_address : ℕ
  ip_address : ℕ
  hwid : ℕ
  dsp_id : ℕ
  sn : ℕ
  fw_major : ℕ
  fw_minor : ℕ
  name : List ℕ
deriving DecidableEq

/-- Embedding of `DiscoveryPacket.parse`: reject buffers shorter than 36 bytes, read the
1-byte name length at offset 35, reject buffers shorter than
`36 + name_len`, then decode the name slice (`UnicodeDecodeError` when it
is not valid UTF-8), and otherwise extract every field from its fixed
offset.  `ValueError` and `UnicodeDecodeError` are modelled as
`Except.error`. -/
def DiscoveryPacket.parse (data : List ℕ) : Except String DiscoveryPacket :=
  if data.length < 36 then
    Except.error "Discovery packet must be larger than 35"
  else
    let name_len := data.getD 35 0
    if data.length < 36 + name_len then Except.error "Name does not fit"
    else if ¬ utf8Valid ((List.range name_len).map (fun i => data.getD (36 + i) 0)) then
      Except.error "UnicodeDecodeError in name"
    else Except.ok
      { name := (List.range name_len).map (fun i => data.getD (36 + i) 0)
        ip_address := (data.getD 14 0 <<< 24) ||| (data.getD 15 0 <<< 16) |||
          (data.getD 16 0 <<< 8) ||| data.getD 17 0
        mac_address := (data.getD 6 0 <<< 40) ||| (data.getD 7 0 <<< 32) |||
          (data.getD 8 0 <<< 24) ||| (data.getD 9 0 <<< 16) |||
          (data.getD 10 0 <<< 8) ||| data.getD 11 0
        hwid := data.getD 18 0
        dsp_id := data.getD 21 0
        sn := (data.getD 22 0 <<< 8) ||| data.getD 23 0
        fw_major := data.getD 19 0
        fw_minor := data.getD 20 0 }

end Minidsp

/-- A family-A device whose recorded volume byte is 175, i.e. exactly
-10 dB, the clamp limit. -/
def devVol175 : Devialet.Device :=
  { name := [0x41], ip_address := "10.0.0.5", source := 0, sources := [],
    power := true, muted := false, volume := 175, num_packets := 0, num_commands := 0 }

/-- A family-A device whose only source, named "CD" (bytes 0x43 0x44), is
disabled (`is_enabled = 0`, from an ASCII digit byte 0x30). -/
def devDisabledCD : Devialet.Device :=
  { name := [0x42], ip_address := "10.0.0.6", source := 0,
    sources := [{ name := [0x43, 0x44], index := 0, is_enabled := 0, is_selected := true }],
    power := true, muted := false, volume := 100, num_packets := 0, num_commands := 0 }

/-- A status buffer whose byte 308 has bits 2-5 all set (value 0x3C) and
every other byte 0x30 (the ASCII digit zero), so every name slice is
valid UTF-8 and every enable byte is a digit: the real constructor accepts
this buffer. -/
def badStatusData : ℕ → ℕ := fun i => if i = 308 then 0x3C else 0x30

/-- A status buffer of all 0x30 bytes (ASCII digit zero): it parses
successfully and its 4-bit source field is `(0x30 &&& 0x3C) >>> 2 = 12`. -/
def goodStatusData : ℕ → ℕ := fun _ => 0x30

/-- A freshly created family-B device with the default catalog. -/
def miniDev : Minidsp.Device :=
  { name := [0x4D], source := none, sources := ["Analog", "Toslink"],
    muted := true, preset := 0, volume_db := Minidsp.MIN_VOL_DB }

/-- Correctness of `clog2F`: it computes `Nat.clog 2` whenever the fuel is
at least the argument. -/
theorem clog2F_eq_clog : ∀ fuel n, n ≤ fuel → Devialet.clog2F fuel n = Nat.clog 2 n := by
  intro fuel
  induction fuel with
  | zero =>
    intro n hn
    interval_cases n
    simp [Devialet.clog2F]
  | succ f ih =>
    intro n hn
    match n with
    | 0 => simp [Devialet.clog2F]
    | 1 => simp [Devialet.clog2F, Nat.clog_one_right]
    | n + 2 =>
      show Devialet.clog2F f ((n + 2 + 1) / 2) + 1 = Nat.clog 2 (n + 2)
      rw [Nat.clog_of_two_le (by norm_num) (by omega)]
      have h2 : (n + 2 + 2 - 1) / 2 = (n + 2 + 1) / 2 := by omega
      rw [h2, ih ((n + 2 + 1) / 2) (by omega)]

/-- Agreement of `clog2` with `Nat.clog 2`. -/
theorem clog2_eq_clog (n : ℕ) : Devialet.clog2 n = Nat.clog 2 n :=
  clog2F_eq_clog n n le_rfl

/-- The high byte of a masked 16-bit split, as a shifted low-byte mask. -/
theorem and_ff00_shiftRight (p : ℕ) : (p &&& 0xff00) >>> 8 = (p >>> 8) &&& 0xff := by
  apply Nat.eq_of_testBit_eq
  intro i
  rw [Nat.testBit_shiftRight, Nat.testBit_and, Nat.testBit_and, Nat.testBit_shiftRight]
  have hm : Nat.testBit 0xff00 (8 + i) = Nat.testBit 0xff i := by
    rcases Nat.lt_or_ge i 8 with hi | hi
    · interval_cases i <;> decide
    · rw [Nat.testBit_lt_two_pow, Nat.testBit_lt_two_pow]
      · calc (0xff : ℕ) < 2 ^ 8 := by norm_num
          _ ≤ 2 ^ i := Nat.pow_le_pow_right (by norm_num) hi
      · calc (0xff00 : ℕ) < 2 ^ 16 := by norm_num
          _ ≤ 2 ^ (8 + i) := Nat.pow_le_pow_right (by norm_num) (by omega)
  rw [hm]

/-- Reassembling a 16-bit value from its big-endian byte split. -/
theorem byte_decode (p : ℕ) (h : p < 65536) :
    ((p &&& 0xff00) >>> 8) * 256 + (p &&& 0xff) = p := by
  rw [and_ff00_shiftRight, Nat.and_pow_two_sub_one_eq_mod p 8,
    Nat.and_pow_two_sub_one_eq_mod _ 8, Nat.shiftRight_eq_div_pow]
  have h3 : p / 2 ^ 8 % 2 ^ 8 = p / 2 ^ 8 := Nat.mod_eq_of_lt (by omega)
  rw [h3]
  omega

/-- `_crc16` output fits in 16 bits. -/
theorem crc16_lt (data : List ℕ) : Devialet._crc16 data < 65536 :=
  Nat.lt_succ_of_le Nat.and_le_right

/-- `_db_convert` never decreases from one half-dB step to the next. -/
theorem db_convert_le_succ (n : ℕ) :
    Devialet._db_convert n ≤ Devialet._db_convert (n + 1) := by
  match n with
  | 0 => simp [Devialet._db_convert]
  | n + 1 =>
    show Devialet._db_convert (n + 1) ≤ (256 >>> Devialet.clog2 (n + 2)) + Devialet._db_convert (n + 1)
    exact Nat.le_add_left _ _

/-- `_db_convert` is monotone. -/
theorem db_convert_mono : Monotone Devialet._db_convert :=
  monotone_nat_of_le_succ db_convert_le_succ

/-- The counter-wrap guard of `prepare_command` keeps values within 16
bits. -/
theorem wrap_le (n : ℕ) : (if n > 0xffff then 0 else n) ≤ 0xffff := by
  split <;> omega

/-- C1: the dB-to-code transform satisfies the recursive specification
`f(0) = 0`, `f(0.5) = 0x3F00`, and for every other input
`f(x) = (256 >> ceil(1 + log2 x)) + f(x - 0.5)` (on the half-dB grid,
`x = n / 2`, the shift amount `ceil(1 + log2(n / 2)) = ceil(log2 n)` is
`Devialet.clog2 n`, certified here by its defining bounds), and `f` is
monotonically non-decreasing in `|x|` for `x` in `0..10` dB at 0.5 dB
steps. -/
theorem C1_db_convert :
    Devialet._db_convert 0 = 0 ∧ Devialet._db_convert 1 = 0x3F00 ∧
    (∀ n, 2 ≤ n →
      Devialet._db_convert n = (256 >>> Devialet.clog2 n) + Devialet._db_convert (n - 1) ∧
      n ≤ 2 ^ Devialet.clog2 n ∧ 2 ^ (Devialet.clog2 n - 1) < n) ∧
    (∀ m n, m ≤ n → n ≤ 20 → Devialet._db_convert m ≤ Devialet._db_convert n) := by
  refine ⟨rfl, rfl, ?_, ?_⟩
  · intro n hn
    obtain ⟨m, rfl⟩ : ∃ m, n = m + 2 := ⟨n - 2, by omega⟩
    refine ⟨rfl, ?_, ?_⟩
    · rw [clog2_eq_clog]
      exact Nat.le_pow_clog (by norm_num) _
    · rw [clog2_eq_clog]
      exact Nat.pow_pred_clog_lt_self (by norm_num) (by omega)
  · intro m n hmn _
    exact db_convert_mono hmn

/-- C1 witness: the recursion equation and the clog bounds at `n = 3`
(1.5 dB), and monotonicity at the top of the range. -/
theorem C1_db_convert_witness :
    (Devialet._db_convert 3 = (256 >>> Devialet.clog2 3) + Devialet._db_convert 2 ∧
      3 ≤ 2 ^ Devialet.clog2 3 ∧ 2 ^ (Devialet.clog2 3 - 1) < 3) ∧
    Devialet._db_convert 19 ≤ Devialet._db_convert 20 :=
  ⟨C1_db_convert.2.2.1 3 (by decide), C1_db_convert.2.2.2 19 20 (by decide) (by decide)⟩

set_option maxRecDepth 4000 in
/-- C2: for every outgoing family-A command frame, bytes 12-13 hold the
CRC-16/CCITT-FALSE of bytes 0-11 (big-endian); and for the 12-byte prefix
of a power-off command with both counters 0, the computed CRC equals the
value of the CCITT-FALSE reference definition. -/
theorem C2_crc_frame :
    (∀ num_packets num_commands command,
      (Devialet.prepare_command num_packets num_commands command).2.2 12 * 256 +
        (Devialet.prepare_command num_packets num_commands command).2.2 13 =
      Devialet._crc16 (Devialet.firstTwelve
        (Devialet.prepare_command num_packets num_commands command).2.2)) ∧
    Devialet.firstTwelve (Devialet.prepare_command 0 0 (Devialet.powerCommandData false)).2.2 =
      [0x44, 0x72, 0, 0, 0, 0, 0, 0x01, 0, 0, 0, 0] ∧
    Devialet._crc16 [0x44, 0x72, 0, 0, 0, 0, 0, 0x01, 0, 0, 0, 0] =
      Devialet.crc16_ref [0x44, 0x72, 0, 0, 0, 0, 0, 0x01, 0, 0, 0, 0] := by
  refine ⟨?_, by decide, by decide⟩
  intro np nc cmd
  simp only [Devialet.prepare_command, Devialet.firstTwelve, Devialet.bset]
  norm_num
  exact byte_decode _ (crc16_lt _)

set_option maxRecDepth 4000 in
/-- C3 counterexample: for the device recorded at 175 (-10 dB, whose
corresponding code is 0xC120), requesting -10 dB computes the very same
code 0xC120, yet `async_set_volume_db` still hands one command carrying
that code to `async_send_command` - there is no no-op check. -/
theorem C3_volume_noop_counterexample :
    Devialet.recordedVolumeCode devVol175 = 0xC120 ∧
    Devialet.volumeCode (-20) = 0xC120 ∧
    (Devialet.Device.async_set_volume_db devVol175 (-20)).length = 1 ∧
    ((Devialet.Device.async_set_volume_db devVol175 (-20)).headD Devialet.bzero) 8 = 0xC1 ∧
    ((Devialet.Device.async_set_volume_db devVol175 (-20)).headD Devialet.bzero) 9 = 0x20 := by
  refine ⟨by decide, by decide, rfl, by decide, by decide⟩

/-- C3 (amended): `async_set_volume_db` always transmits exactly one
command, regardless of the device's currently recorded volume; the frame
carries the computed volume code in bytes 8-9 big-endian. -/
theorem C3_volume_always_sends (d : Devialet.Device) (volume_db : ℤ) :
    ∃ f, Devialet.Device.async_set_volume_db d volume_db = [f] ∧
      f 8 = (Devialet.volumeCode volume_db &&& 0xFF00) >>> 8 ∧
      f 9 = Devialet.volumeCode volume_db &&& 0x00FF := by
  refine ⟨_, rfl, ?_, ?_⟩ <;> simp [Devialet.bset]

/-- C4 counterexample: selecting the disabled source "CD" raises no error
even though "CD" is not among the device's currently enabled sources
(`get_sources` is empty), contradicting the claim that an invalid-argument
error is raised exactly when the name is not among the enabled sources. -/
theorem C4_select_source_counterexample :
    Devialet.raisesError (Devialet.Device.async_select_source devDisabledCD [0x43, 0x44]) = false ∧
    [0x43, 0x44] ∉ Devialet.Device.get_sources devDisabledCD := by
  decide

/-- C4 (amended): `async_select_source` raises an invalid-argument error
exactly when the requested name is not present among the names of the
device's sources, enabled or not (the source iterates over all of
`self.sources`); when the name is present, no error is raised and a
command is transmitted. -/
theorem C4_select_source (d : Devialet.Device) (nm : List ℕ) :
    (Devialet.raisesError (Devialet.Device.async_select_source d nm) = true ↔
      nm ∉ d.sources.map Devialet.Source.name) ∧
    (nm ∈ d.sources.map Devialet.Source.name →
      ∃ f, Devialet.Device.async_select_source d nm = Except.ok f) := by
  constructor
  · unfold Devialet.Device.async_select_source
    cases h : d.sources.find? (fun s => s.name == nm) with
    | none =>
      simp only [Devialet.raisesError, List.find?_eq_none] at h ⊢
      simp only [true_iff, List.mem_map, not_exists]
      rintro s ⟨hs, rfl⟩
      exact (h s hs) (by simp)
    | some s =>
      have h1 : s.name = nm := by simpa using List.find?_some h
      have h2 := List.mem_of_find?_eq_some h
      simp only [Devialet.raisesError, Bool.false_eq_true, false_iff, not_not]
      exact List.mem_map.mpr ⟨s, h2, h1⟩
  · intro hmem
    obtain ⟨s, hs, hname⟩ := List.mem_map.mp hmem
    have hsome : (d.sources.find? (fun s => s.name == nm)).isSome :=
      List.find?_isSome.mpr ⟨s, hs, by simp [hname]⟩
    obtain ⟨t, ht⟩ := Option.isSome_iff_exists.mp hsome
    unfold Devialet.Device.async_select_source
    rw [ht]
    exact ⟨_, rfl⟩

/-- C4 witness: the disabled source "CD" is present among the source
names, so selection succeeds and a command is produced. -/
theorem C4_select_source_witness :
    ∃ f, Devialet.Device.async_select_source devDisabledCD [0x43, 0x44] = Except.ok f :=
  (C4_select_source devDisabledCD [0x43, 0x44]).2 (by decide)

/-- C5: for every source index (0..14), the source-select payload carries
`0x4000 | (index << 5)` big-endian in bytes 8-9, except that for
`index > 7` the low byte is right-shifted once more; in particular the low
byte for index 10 differs from the un-shifted encoding. -/
theorem C5_source_bitpacking :
    (∀ i, i ≤ 14 →
      Devialet.sourceCommandData i 8 = (0x4000 ||| (i <<< 5)) / 256 ∧
      Devialet.sourceCommandData i 9 =
        (if 7 < i then ((0x4000 ||| (i <<< 5)) % 256) >>> 1
         else (0x4000 ||| (i <<< 5)) % 256)) ∧
    Devialet.sourceCommandData 10 9 ≠ (0x4000 ||| (10 <<< 5)) % 256 := by
  exact ⟨by decide, by decide⟩

/-- C5 witness: the encoding at index 10, where the extra right shift
applies. -/
theorem C5_source_bitpacking_witness :
    Devialet.sourceCommandData 10 8 = (0x4000 ||| (10 <<< 5)) / 256 ∧
    Devialet.sourceCommandData 10 9 =
      (if 7 < 10 then ((0x4000 ||| (10 <<< 5)) % 256) >>> 1
       else (0x4000 ||| (10 <<< 5)) % 256) :=
  C5_source_bitpacking.1 10 (by decide)

/-- C6: a logical command is transmitted exactly 2 times by default; the
two frames carry consecutive (mod 2^16) packet-counter values in bytes
2-3 and identical command-counter values in bytes 4-5; after the logical
command the stored packet counter has advanced once per physical send and
the stored command counter once in total, each wrapping to 0 past
65535. -/
theorem C6_transmit_repetition (num_packets num_commands : ℕ) (command : ℕ → ℕ) :
    ∃ f1 f2, (Devialet.connection_made 2 num_packets num_commands command).1 = [f1, f2] ∧
      f1 2 * 256 + f1 3 = (if num_packets > 0xffff then 0 else num_packets) ∧
      f2 2 * 256 + f2 3 =
        ((if num_packets > 0xffff then 0 else num_packets) + 1) % 65536 ∧
      f1 4 = f2 4 ∧ f1 5 = f2 5 ∧
      (Devialet.connection_made 2 num_packets num_commands command).2.1 =
        ((if num_packets > 0xffff then 0 else num_packets) + 1) % 65536 + 1 ∧
      (Devialet.connection_made 2 num_packets num_commands command).2.2 =
        (if num_commands > 0xffff then 0 else num_commands) + 1 := by
  have hP := wrap_le num_packets
  have hC := wrap_le num_commands
  set P := if num_packets > 0xffff then 0 else num_packets with hPdef
  set C := if num_commands > 0xffff then 0 else num_commands with hCdef
  have hP1 : (if P + 1 > 0xffff then 0 else P + 1) = (P + 1) % 65536 := by
    split <;> omega
  have hC1 : (if C > 0xffff then 0 else C) = C := by
    split <;> omega
  simp only [Devialet.connection_made, Devialet.sendLoop, Devialet.prepare_command,
    Devialet.bset, ← hPdef, ← hCdef, hP1, hC1]
  refine ⟨_, _, rfl, ?_, ?_, ?_, ?_, ?_, ?_⟩
  · simpa [Devialet.bset] using byte_decode P (by omega)
  · simpa [Devialet.bset, hP1] using byte_decode ((P + 1) % 65536) (by omega)
  · simp [Devialet.bset, hC1]
  · simp [Devialet.bset, hC1]
  · simp [hP1]
  · simp [hC1]

set_option maxRecDepth 4000 in
/-- C7 counterexample: a buffer the real constructor accepts (every name
byte and enable byte is the ASCII digit zero) whose byte 308 has bits 2-5
all set parses successfully to `source_index = 15`, equal to the length of
the 15-entry source list, so looking up the current source name indexes
out of range (`get_source` finds no entry; in Python `IndexError`). -/
theorem C7_source_index_counterexample :
    (Devialet.Device.init badStatusData "10.0.0.7").toOption.map
      Devialet.Device.source = some 15 ∧
    (Devialet.Device.init badStatusData "10.0.0.7").toOption.map
      (fun d => d.sources.length) = some 15 ∧
    (Devialet.Device.init badStatusData "10.0.0.7").toOption.map
      Devialet.Device.get_source = some none := by
  refine ⟨by decide, by decide, by decide⟩

/-- C7 (amended): every successful parse yields `source_index ≤ 15` and a
15-entry source list; the lookup is in range whenever the 4-bit field of
byte 308 is at most 14 (the code does not validate the upper bound, so the
all-set bit pattern yields index 15, out of range); a merge takes
`source_index` from either the old or the incoming device. -/
theorem C7_source_index_bound (status_data : ℕ → ℕ) (addr : String)
    (d0 : Devialet.Device)
    (h : Devialet.Device.init status_data addr = Except.ok d0) :
    d0.source ≤ 15 ∧
    d0.sources.length = 15 ∧
    ((status_data 308 &&& 0x3C) >>> 2 < 15 → d0.source < d0.sources.length) ∧
    (∀ d : Devialet.Device,
      (Devialet.Device.update d d0).1.source = d.source ∨
      (Devialet.Device.update d d0).1.source = d0.source) := by
  unfold Devialet.Device.init at h
  split at h
  · simp only [Except.ok.injEq] at h
    subst h
    refine ⟨?_, by simp, ?_, ?_⟩
    · show (status_data 308 &&& 0x3C) >>> 2 ≤ 15
      rw [Nat.shiftRight_eq_div_pow]
      have h1 : status_data 308 &&& 0x3C ≤ 0x3C := Nat.and_le_right
      omega
    · intro hlt
      simpa using hlt
    · intro d
      unfold Devialet.Device.update
      split
      · exact Or.inl rfl
      · exact Or.inr rfl
  · cases h

set_option maxRecDepth 4000 in
/-- C7 witness: the all-digit-zero buffer parses successfully, its 4-bit
field is 12, so the parsed index is in range, and a merge into an existing
device keeps the index in the allowed pair. -/
theorem C7_source_index_bound_witness :
    ∃ d, Devialet.Device.init goodStatusData "10.0.0.8" = Except.ok d ∧
      d.source < d.sources.length ∧
      ((Devialet.Device.update devVol175 d).1.source = devVol175.source ∨
        (Devialet.Device.update devVol175 d).1.source = d.source) := by
  refine ⟨_, rfl, ?_, ?_⟩
  · exact (C7_source_index_bound goodStatusData "10.0.0.8" _ rfl).2.2.1 (by decide)
  · exact (C7_source_index_bound goodStatusData "10.0.0.8" _ rfl).2.2.2 devVol175

/-- C8: merging with a snapshot whose name differs leaves the target
device completely unmodified (including its source list) and reports
`changed = false`. -/
theorem C8_merge_name_guard (self device_update : Devialet.Device)
    (h : device_update.name ≠ self.name) :
    Devialet.Device.update self device_update = (self, false) := by
  unfold Devialet.Device.update
  rw [if_pos h]

set_option maxRecDepth 2000 in
/-- C8 witness: merging the "CD"-device snapshot (name 0x42) into the
volume-175 device (name 0x41) changes nothing. -/
theorem C8_merge_name_guard_witness :
    Devialet.Device.update devVol175 devDisabledCD = (devVol175, false) :=
  C8_merge_name_guard devVol175 devDisabledCD (by decide)

/-- C9: family-B discovery parsing fails with a decode error for every
buffer shorter than 36 bytes, and for every buffer shorter than
`36 + name_length` (the byte at offset 35); on failure no packet is
produced; on success every field is read from its fixed offset: MAC from 6
bytes at offset 6, IPv4 from 4 bytes at offset 14, hwid/fw_major/fw_minor/
dsp_id from offsets 18-21, the serial big-endian from offsets 22-23, and
the name from the length-prefixed tail (when that tail is not valid UTF-8
the source raises `UnicodeDecodeError` instead, again producing no
packet, so the success case additionally assumes a valid name). -/
theorem C9_discovery_parse (data : List ℕ) :
    (data.length < 36 →
      Minidsp.DiscoveryPacket.parse data =
        Except.error "Discovery packet must be larger than 35") ∧
    (data.length < 36 + data.getD 35 0 →
      ∀ pkt, Minidsp.DiscoveryPacket.parse data ≠ Except.ok pkt) ∧
    (∀ pkt, Minidsp.DiscoveryPacket.parse data = Except.ok pkt →
      pkt = { name := (List.range (data.getD 35 0)).map (fun i => data.getD (36 + i) 0)
              ip_address := (data.getD 14 0 <<< 24) ||| (data.getD 15 0 <<< 16) |||
                (data.getD 16 0 <<< 8) ||| data.getD 17 0
              mac_address := (data.getD 6 0 <<< 40) ||| (data.getD 7 0 <<< 32) |||
                (data.getD 8 0 <<< 24) ||| (data.getD 9 0 <<< 16) |||
                (data.getD 10 0 <<< 8) ||| data.getD 11 0
              hwid := data.getD 18 0
              dsp_id := data.getD 21 0
              sn := (data.getD 22 0 <<< 8) ||| data.getD 23 0
              fw_major := data.getD 19 0
              fw_minor := data.getD 20 0 }) ∧
    (36 + data.getD 35 0 ≤ data.length →
      utf8Valid ((List.range (data.getD 35 0)).map (fun i => data.getD (36 + i) 0)) = true →
      Minidsp.DiscoveryPacket.parse data = Except.ok
        { name := (List.range (data.getD 35 0)).map (fun i => data.getD (36 + i) 0)
          ip_address := (data.getD 14 0 <<< 24) ||| (data.getD 15 0 <<< 16) |||
            (data.getD 16 0 <<< 8) ||| data.getD 17 0
          mac_address := (data.getD 6 0 <<< 40) ||| (data.getD 7 0 <<< 32) |||
            (data.getD 8 0 <<< 24) ||| (data.getD 9 0 <<< 16) |||
            (data.getD 10 0 <<< 8) ||| data.getD 11 0
          hwid := data.getD 18 0
          dsp_id := data.getD 21 0
          sn := (data.getD 22 0 <<< 8) ||| data.getD 23 0
          fw_major := data.getD 19 0
          fw_minor := data.getD 20 0 }) := by
  refine ⟨?_, ?_, ?_, ?_⟩
  · intro h
    unfold Minidsp.DiscoveryPacket.parse
    rw [if_pos h]
  · intro h pkt
    unfold Minidsp.DiscoveryPacket.parse
    split
    · simp
    · rw [if_pos h]
      simp
  · intro pkt h
    unfold Minidsp.DiscoveryPacket.parse at h
    split at h
    · cases h
    · simp only [] at h
      split at h
      · cases h
      · split at h
        · cases h
        · simp only [Except.ok.injEq] at h
          exact h.symm
  · intro h1 h2
    unfold Minidsp.DiscoveryPacket.parse
    rw [if_neg (by omega), if_neg (by omega), if_neg (not_not_intro h2)]

/-- C9 witness: a 20-byte buffer is rejected; a 36-byte buffer announcing
a 5-byte name is rejected; a 37-byte buffer announcing a 1-byte name
parses into the fully determined packet. -/
theorem C9_discovery_parse_witness :
    Minidsp.DiscoveryPacket.parse (List.replicate 20 0) =
      Except.error "Discovery packet must be larger than 35" ∧
    (∀ pkt, Minidsp.DiscoveryPacket.parse
      (List.replicate 35 0 ++ [5]) ≠ Except.ok pkt) ∧
    Minidsp.DiscoveryPacket.parse (List.replicate 35 0 ++ [1, 0x41]) = Except.ok
      { name := [0x41], ip_address := 0, mac_address := 0, hwid := 0,
        dsp_id := 0, sn := 0, fw_major := 0, fw_minor := 0 } := by
  refine ⟨(C9_discovery_parse (List.replicate 20 0)).1 (by decide),
    (C9_discovery_parse (List.replicate 35 0 ++ [5])).2.1 (by decide),
    ((C9_discovery_parse (List.replicate 35 0 ++ [1, 0x41])).2.2.2
      (by decide) (by decide)).trans ?_⟩
  exact congrArg Except.ok (by decide)

/-- C10: the family-B control setters validate before mutating: an
out-of-range preset or unknown source raises with the device state
unchanged and nothing posted, while on valid input the new value (clamped,
for volume) is recorded in the local device state as part of the call and
posted, regardless of any device response. -/
theorem C10_minidsp_setters :
    (∀ (d : Minidsp.Device) (preset : ℤ), (preset < 0 ∨ preset > 4) →
      Minidsp.Device.async_select_preset d preset = (some "Preset is not valid", d, [])) ∧
    (∀ (d : Minidsp.Device) (nm : String), nm ∉ d.sources →
      Minidsp.Device.async_select_source d nm =
        (some "Source is not one of the sources", d, [])) ∧
    (∀ (d : Minidsp.Device) (preset : ℤ), 0 ≤ preset → preset ≤ 4 →
      Minidsp.Device.async_select_preset d preset =
        (none, { d with preset := preset }, [Minidsp.MasterStatus.preset preset])) ∧
    (∀ (d : Minidsp.Device) (nm : String), nm ∈ d.sources →
      Minidsp.Device.async_select_source d nm =
        (none, { d with source := some nm }, [Minidsp.MasterStatus.source nm])) ∧
    (∀ (d : Minidsp.Device) (volume_db : ℚ),
      Minidsp.Device.async_set_volume_db d volume_db =
        (none, { d with volume_db := Minidsp.clampVol volume_db },
          [Minidsp.MasterStatus.volume (Minidsp.clampVol volume_db)]) ∧
      Minidsp.MIN_VOL_DB ≤ Minidsp.clampVol volume_db ∧
      Minidsp.clampVol volume_db ≤ Minidsp.MAX_VOL_DB) := by
  refine ⟨?_, ?_, ?_, ?_, ?_⟩
  · intro d preset h
    unfold Minidsp.Device.async_select_preset
    rw [if_pos h]
  · intro d nm h
    unfold Minidsp.Device.async_select_source
    rw [if_pos h]
  · intro d preset h1 h2
    unfold Minidsp.Device.async_select_preset
    rw [if_neg (by omega)]
  · intro d nm h
    unfold Minidsp.Device.async_select_source
    rw [if_neg (by simpa using h)]
  · intro d volume_db
    refine ⟨rfl, ?_, ?_⟩
    · unfold Minidsp.clampVol
      split_ifs with h1 h2
      · exact le_refl _
      · norm_num [Minidsp.MIN_VOL_DB, Minidsp.MAX_VOL_DB]
      · exact not_lt.mp h1
    · unfold Minidsp.clampVol
      split_ifs with h1 h2
      · norm_num [Minidsp.MIN_VOL_DB, Minidsp.MAX_VOL_DB]
      · exact le_refl _
      · exact not_lt.mp h2

/-- C10 witness: preset 5 and source "Usb" are rejected with the state
unchanged and nothing posted; preset 3 and source "Toslink" are recorded
and posted. -/
theorem C10_minidsp_setters_witness :
    Minidsp.Device.async_select_preset miniDev 5 =
      (some "Preset is not valid", miniDev, []) ∧
    Minidsp.Device.async_select_source miniDev "Usb" =
      (some "Source is not one of the sources", miniDev, []) ∧
    Minidsp.Device.async_select_preset miniDev 3 =
      (none, { miniDev with preset := 3 }, [Minidsp.MasterStatus.preset 3]) ∧
    Minidsp.Device.async_select_source miniDev "Toslink" =
      (none, { miniDev with source := some "Toslink" },
        [Minidsp.MasterStatus.source "Toslink"]) :=
  ⟨C10_minidsp_setters.1 miniDev 5 (by omega),
    C10_minidsp_setters.2.1 miniDev "Usb" (by decide),
    C10_minidsp_setters.2.2.1 miniDev 3 (by omega) (by omega),
    C10_minidsp_setters.2.2.2.1 miniDev "Toslink" (by decide)⟩
